import Mathlib

/-!
Verification of the tile-layout arithmetic, the variadic cleanup pattern and
the Lesson 5 event loop of the SDL2Lessons repository.

The definitions below are shallow embeddings of the C++ sources:
* `sourceTileRect`, `buildClips`, `totalSourceTiles`, `xScreenTilesOf`,
  `yScreenTilesOf` come from `src/Lesson5/src/main.cc` lines 126-151;
* `lesson5ScreenTileOrigin` from the screen draw loop, lines 192-196;
* `lesson3TileOrigin` from the background tiling loop of
  `src/Lesson3/src/main.cc` lines 115-125;
* `cleanup` from the variadic recursive template in `cleanup.h`;
* `handleEvent` / `runEvents` from the Lesson 5 event loop, lines 161-188.

All machine integers in the sources are C `int`s holding small non-negative
values (pixel sizes, indices, tile counts), far from overflow, so they are
modelled as `Nat`; C integer division and remainder on non-negative values
coincide with `Nat` division and `%`.
-/

/-- An `SDL_Rect`: integer position and size, as used for clip and
destination rectangles. -/
structure Rect where
  x : Nat
  y : Nat
  w : Nat
  h : Nat
deriving DecidableEq, Repr

/-- Body of the clips loop of Lesson 5 (`main.cc` lines 136-140):
`clips[i].x = i / yTiles * tileW; clips[i].y = i % yTiles * tileH;
clips[i].w = tileW; clips[i].h = tileH;` with `yTiles` the number of tiles
fitting vertically in the source image. -/
def sourceTileRect (index tileWidth tileHeight rowsPerColumn : Nat) : Rect :=
  { x := index / rowsPerColumn * tileWidth
    y := index % rowsPerColumn * tileHeight
    w := tileWidth
    h := tileHeight }

/-- `const int xTiles = imageW / tileW;` (Lesson 5, line 130). -/
def xTilesOf (sourceWidth tileWidth : Nat) : Nat :=
  sourceWidth / tileWidth

/-- `const int yTiles = imageH / tileH;` (Lesson 5, line 131). -/
def yTilesOf (sourceHeight tileHeight : Nat) : Nat :=
  sourceHeight / tileHeight

/-- `const int totalTiles = xTiles * yTiles;` (Lesson 5, line 132). -/
def totalSourceTiles (sourceWidth sourceHeight tileWidth tileHeight : Nat) : Nat :=
  xTilesOf sourceWidth tileWidth * yTilesOf sourceHeight tileHeight

/-- The clips array built by the loop `for (int i = 0; i < totalTiles; i++)`
(Lesson 5, lines 135-141): one `sourceTileRect` per index below
`totalTiles`. -/
def buildClips (totalTiles rowsPerColumn tileWidth tileHeight : Nat) : List Rect :=
  (List.range totalTiles).map fun i => sourceTileRect i tileWidth tileHeight rowsPerColumn

/-- `const int xScreenTiles = SCREEN_WIDTH / tileW + (SCREEN_WIDTH % tileW != 0 ? 1 : 0);`
(Lesson 5, lines 147-148), generalised over the display width. -/
def xScreenTilesOf (displayWidth tileWidth : Nat) : Nat :=
  displayWidth / tileWidth + (if displayWidth % tileWidth ≠ 0 then 1 else 0)

/-- `const int yScreenTiles = SCREEN_HEIGHT / tileH + (SCREEN_HEIGHT % tileH != 0 ? 1 : 0);`
(Lesson 5, lines 149-150), generalised over the display height. -/
def yScreenTilesOf (displayHeight tileHeight : Nat) : Nat :=
  displayHeight / tileHeight + (if displayHeight % tileHeight ≠ 0 then 1 else 0)

/-- `const int totalScreenTiles = xScreenTiles * yScreenTiles;` (Lesson 5, line 151). -/
def totalScreenTiles (displayWidth displayHeight tileWidth tileHeight : Nat) : Nat :=
  xScreenTilesOf displayWidth tileWidth * yScreenTilesOf displayHeight tileHeight

/-- Modelled from the spec: the destination-placement contract
`screenTileOrigin(index, tileWidth, tileHeight, rowsPerScreen)` with
`x = (index / rowsPerScreen) * tileWidth`,
`y = (index % rowsPerScreen) * tileHeight`. -/
def screenTileOrigin (index tileWidth tileHeight rowsPerScreen : Nat) : Nat × Nat :=
  (index / rowsPerScreen * tileWidth, index % rowsPerScreen * tileHeight)

/-- Lesson 5 screen constants: `SCREEN_WIDTH = 640`, `SCREEN_HEIGHT = 480`,
`tileW = tileH = 100`. -/
def lesson5ScreenWidth : Nat := 640

def lesson5ScreenHeight : Nat := 480

def lesson5TileW : Nat := 100

def lesson5TileH : Nat := 100

def lesson5YScreenTiles : Nat := yScreenTilesOf lesson5ScreenHeight lesson5TileH

/-- Body of the Lesson 5 screen draw loop (`main.cc` lines 192-196):
`int x = i / yScreenTiles * tileW; int y = i % yScreenTiles * tileH;`. -/
def lesson5ScreenTileOrigin (i : Nat) : Nat × Nat :=
  (i / lesson5YScreenTiles * lesson5TileW, i % lesson5YScreenTiles * lesson5TileH)

/-- Lesson 3 constants: `SCREEN_WIDTH = 640`, `SCREEN_HEIGHT = 480`,
`TILE_SIZE = 40`. -/
def lesson3TileSize : Nat := 40

def lesson3XTiles : Nat := 640 / lesson3TileSize

def lesson3YTiles : Nat := 480 / lesson3TileSize

/-- Body of the Lesson 3 background tiling loop (`main.cc` lines 118-125):
`int x = i % xTiles; int y = i / xTiles;` then both scaled by `TILE_SIZE`. -/
def lesson3TileOrigin (i : Nat) : Nat × Nat :=
  (i % lesson3XTiles * lesson3TileSize, i / lesson3XTiles * lesson3TileSize)

/-- The whole tile-layout computation of Lesson 5 lines 130-151, gathered in
one record. -/
structure TileLayout where
  xTiles : Nat
  yTiles : Nat
  totalTiles : Nat
  clips : List Rect
  xScreenTiles : Nat
  yScreenTiles : Nat
  totalScreenTiles : Nat
deriving DecidableEq, Repr

/-- Lesson 5 lines 130-151 as a straight-line computation threaded through an
arbitrary ambient state `σ` (one threading per source statement): the code
performs no library call and touches no global between reading its inputs and
producing the layout, so each step passes the state on unchanged. -/
def computeTileLayoutSt {σ : Type} (s : σ)
    (imageW imageH tileW tileH screenW screenH : Nat) : TileLayout × σ :=
  let xT := imageW / tileW
  let s₁ := s
  let yT := imageH / tileH
  let s₂ := s₁
  let total := xT * yT
  let s₃ := s₂
  let clips := buildClips total yT tileW tileH
  let s₄ := s₃
  let xS := screenW / tileW + (if screenW % tileW ≠ 0 then 1 else 0)
  let s₅ := s₄
  let yS := screenH / tileH + (if screenH % tileH ≠ 0 then 1 else 0)
  let s₆ := s₅
  (⟨xT, yT, total, clips, xS, yS, xS * yS⟩, s₆)

/-- The handle types released by the `cleanup` specialisations. Each
specialisation checks its pointer for null and otherwise destroys it, so a
handle argument is modelled as an `Option` over an abstract handle value. -/
def cleanupOne {α : Type} (t : Option α) : List α :=
  match t with
  | none => []
  | some h => [h]

/-- The variadic recursive `cleanup(t, args...)` of `cleanup.h`: release the
first handle, then recurse on the remaining ones. The result is the trace of
release calls issued, in order. -/
def cleanup {α : Type} : List (Option α) → List α
  | [] => []
  | t :: rest => cleanupOne t ++ cleanup rest

/-- The key symbols distinguished by the Lesson 5 `switch` (lines 166-185);
`other` stands for every other `SDLK_*` value. -/
inductive SDLKey where
  | k1 | kp1 | k2 | kp2 | k3 | kp3 | k4 | kp4 | escape | other
deriving DecidableEq, Repr

/-- The event shapes distinguished by the Lesson 5 poll loop (lines 162-187). -/
inductive SDLEvent where
  | quit
  | keyDown (k : SDLKey)
  | other
deriving DecidableEq, Repr

/-- The mutable locals of the Lesson 5 event loop: `useClip` and `quit`. -/
structure LoopState where
  useClip : Nat
  quit : Bool
deriving DecidableEq, Repr

/-- `int useClip = 0;` and `bool quit = false;` (Lesson 5, lines 143 and 159). -/
def initLoopState : LoopState :=
  { useClip := 0, quit := false }

/-- One iteration of the inner `SDL_PollEvent` handler (Lesson 5, lines
162-187): `SDL_QUIT` sets `quit`; a keydown on 1-4 (top row or keypad) sets
`useClip` to 0-3; escape sets `quit`; everything else changes nothing. -/
def handleEvent (s : LoopState) (e : SDLEvent) : LoopState :=
  match e with
  | .quit => { s with quit := true }
  | .keyDown k =>
    match k with
    | .k1 | .kp1 => { s with useClip := 0 }
    | .k2 | .kp2 => { s with useClip := 1 }
    | .k3 | .kp3 => { s with useClip := 2 }
    | .k4 | .kp4 => { s with useClip := 3 }
    | .escape => { s with quit := true }
    | .other => s
  | .other => s

/-- The event loop run over a finite stream of polled events. -/
def runEvents (s : LoopState) (es : List SDLEvent) : LoopState :=
  es.foldl handleEvent s

/-- C1: for every index and positive tile dimensions and row count,
`sourceTileRect` returns exactly the rectangle
`{ x = (index / rowsPerColumn) * tileWidth,
   y = (index % rowsPerColumn) * tileHeight,
   width = tileWidth, height = tileHeight }`
under integer division and remainder. -/
theorem sourceTileRect_formula (index tileWidth tileHeight rowsPerColumn : Nat)
    (htw : 0 < tileWidth) (hth : 0 < tileHeight) (hr : 0 < rowsPerColumn) :
    sourceTileRect index tileWidth tileHeight rowsPerColumn =
      { x := index / rowsPerColumn * tileWidth
        y := index % rowsPerColumn * tileHeight
        w := tileWidth
        h := tileHeight } := rfl

/-- Witness for C1: concrete evaluation at index 7, 100×100 tiles, 2 rows per
column. -/
theorem sourceTileRect_formula_witness :
    sourceTileRect 7 100 100 2 = { x := 300, y := 100, w := 100, h := 100 } := by
  have h := sourceTileRect_formula 7 100 100 2 (by decide) (by decide) (by decide)
  simpa using h

/-- C2: with positive tile dimensions and a source at least one tile in each
direction, the total number of source tiles is the product of the floor
divisions, so remainder pixels are excluded. -/
theorem totalSourceTiles_eq (sourceWidth sourceHeight tileWidth tileHeight : Nat)
    (htw : 0 < tileWidth) (hth : 0 < tileHeight)
    (hsw : tileWidth ≤ sourceWidth) (hsh : tileHeight ≤ sourceHeight) :
    totalSourceTiles sourceWidth sourceHeight tileWidth tileHeight =
      sourceWidth / tileWidth * (sourceHeight / tileHeight) := rfl

/-- Witness for C2: the spec's concrete scenario, a 400×200 source with
100×100 tiles gives 8 tiles (remainders excluded). -/
theorem totalSourceTiles_eq_witness :
    totalSourceTiles 430 250 100 100 = 430 / 100 * (250 / 100) ∧
      totalSourceTiles 430 250 100 100 = 8 :=
  ⟨totalSourceTiles_eq 430 250 100 100 (by decide) (by decide) (by decide) (by decide),
    by decide⟩

/-- Helper: an index below the total tile count has its column index below the
column count. -/
theorem div_lt_of_lt_total {i cols rows : Nat} (hr : 0 < rows)
    (hi : i < cols * rows) : i / rows < cols :=
  (Nat.div_lt_iff_lt_mul hr).mpr hi

/-- C3: every clip rectangle produced for a valid index lies within the source
image: `x + width ≤ sourceWidth` and `y + height ≤ sourceHeight`. -/
theorem sourceTileRect_in_bounds
    (sourceWidth sourceHeight tileWidth tileHeight index : Nat)
    (htw : 0 < tileWidth) (hth : 0 < tileHeight)
    (hsw : tileWidth ≤ sourceWidth) (hsh : tileHeight ≤ sourceHeight)
    (hi : index < totalSourceTiles sourceWidth sourceHeight tileWidth tileHeight) :
    (sourceTileRect index tileWidth tileHeight (yTilesOf sourceHeight tileHeight)).x +
        (sourceTileRect index tileWidth tileHeight (yTilesOf sourceHeight tileHeight)).w ≤
      sourceWidth ∧
    (sourceTileRect index tileWidth tileHeight (yTilesOf sourceHeight tileHeight)).y +
        (sourceTileRect index tileWidth tileHeight (yTilesOf sourceHeight tileHeight)).h ≤
      sourceHeight := by
  have hyT : 0 < yTilesOf sourceHeight tileHeight := Nat.div_pos hsh hth
  constructor
  · have hcol : index / yTilesOf sourceHeight tileHeight < xTilesOf sourceWidth tileWidth :=
      div_lt_of_lt_total hyT hi
    have h1 : (index / yTilesOf sourceHeight tileHeight + 1) * tileWidth ≤
        xTilesOf sourceWidth tileWidth * tileWidth :=
      Nat.mul_le_mul_right _ hcol
    have h2 : xTilesOf sourceWidth tileWidth * tileWidth ≤ sourceWidth :=
      Nat.div_mul_le_self sourceWidth tileWidth
    calc (sourceTileRect index tileWidth tileHeight (yTilesOf sourceHeight tileHeight)).x +
          (sourceTileRect index tileWidth tileHeight (yTilesOf sourceHeight tileHeight)).w
        = (index / yTilesOf sourceHeight tileHeight + 1) * tileWidth := by
          simp [sourceTileRect, Nat.add_mul]
      _ ≤ sourceWidth := le_trans h1 h2
  · have hrow : index % yTilesOf sourceHeight tileHeight < yTilesOf sourceHeight tileHeight :=
      Nat.mod_lt _ hyT
    have h1 : (index % yTilesOf sourceHeight tileHeight + 1) * tileHeight ≤
        yTilesOf sourceHeight tileHeight * tileHeight :=
      Nat.mul_le_mul_right _ hrow
    have h2 : yTilesOf sourceHeight tileHeight * tileHeight ≤ sourceHeight :=
      Nat.div_mul_le_self sourceHeight tileHeight
    calc (sourceTileRect index tileWidth tileHeight (yTilesOf sourceHeight tileHeight)).y +
          (sourceTileRect index tileWidth tileHeight (yTilesOf sourceHeight tileHeight)).h
        = (index % yTilesOf sourceHeight tileHeight + 1) * tileHeight := by
          simp [sourceTileRect, Nat.add_mul]
      _ ≤ sourceHeight := le_trans h1 h2

/-- Witness for C3: the last clip of a 430×250 source with 100×100 tiles stays
within the image. -/
theorem sourceTileRect_in_bounds_witness :
    (sourceTileRect 7 100 100 (yTilesOf 250 100)).x +
        (sourceTileRect 7 100 100 (yTilesOf 250 100)).w ≤ 430 ∧
    (sourceTileRect 7 100 100 (yTilesOf 250 100)).y +
        (sourceTileRect 7 100 100 (yTilesOf 250 100)).h ≤ 250 :=
  sourceTileRect_in_bounds 430 250 100 100 7 (by decide) (by decide)
    (by decide) (by decide) (by decide)

/-- Helper: ceiling division by adding one on a nonzero remainder covers `n`. -/
theorem ceil_tiles_cover (n t : Nat) (ht : 0 < t) :
    n ≤ (n / t + (if n % t ≠ 0 then 1 else 0)) * t := by
  by_cases h : n % t = 0
  · simp only [h, ne_eq, not_true_eq_false, if_neg, not_false_eq_true, if_false, Nat.add_zero]
    exact le_of_eq (Nat.div_mul_cancel (Nat.dvd_of_mod_eq_zero h)).symm
  · simp only [h, ne_eq, not_false_eq_true, if_true, if_pos]
    have h1 : n < n / t * t + t := Nat.lt_div_mul_add ht
    have h2 : (n / t + 1) * t = n / t * t + t := by ring
    omega

/-- C4: the ceiling-division screen tile counts cover the display:
`columns * tileWidth ≥ displayWidth` and `rows * tileHeight ≥ displayHeight`. -/
theorem screenTiles_cover (displayWidth displayHeight tileWidth tileHeight : Nat)
    (hdw : 0 < displayWidth) (hdh : 0 < displayHeight)
    (htw : 0 < tileWidth) (hth : 0 < tileHeight) :
    displayWidth ≤ xScreenTilesOf displayWidth tileWidth * tileWidth ∧
    displayHeight ≤ yScreenTilesOf displayHeight tileHeight * tileHeight :=
  ⟨ceil_tiles_cover displayWidth tileWidth htw,
   ceil_tiles_cover displayHeight tileHeight hth⟩

/-- Witness for C4: Lesson 5's 640×480 screen with 100×100 tiles is covered by
a 7×5 grid. -/
theorem screenTiles_cover_witness :
    (640 ≤ xScreenTilesOf 640 100 * 100 ∧ 480 ≤ yScreenTilesOf 480 100 * 100) ∧
      xScreenTilesOf 640 100 = 7 ∧ yScreenTilesOf 480 100 = 5 :=
  ⟨screenTiles_cover 640 480 100 100 (by decide) (by decide) (by decide) (by decide),
    by decide, by decide⟩

/-- Helper: successor division and remainder when no column boundary is
crossed. -/
theorem succ_div_mod_of_mod_succ_lt {i r : Nat} (h : i % r + 1 < r) :
    (i + 1) / r = i / r ∧ (i + 1) % r = i % r + 1 := by
  have hr : 0 < r := lt_of_le_of_lt (Nat.zero_le _) h
  have hd : r * (i / r) + i % r = i := Nat.div_add_mod i r
  exact (Nat.div_mod_unique hr).mpr ⟨by omega, h⟩

/-- Helper: successor division and remainder when the index sits at the bottom
of a column. -/
theorem succ_div_mod_of_mod_eq_last {i r : Nat} (hr : 0 < r)
    (h : i % r = r - 1) : (i + 1) / r = i / r + 1 ∧ (i + 1) % r = 0 := by
  have hd : r * (i / r) + i % r = i := Nat.div_add_mod i r
  have h1 : r * (i / r + 1) = r * (i / r) + r := by ring
  exact (Nat.div_mod_unique hr).mpr ⟨by omega, hr⟩

/-- C5: column-major stepping. While inside a column, the next clip is the
current one shifted down by one `tileHeight` with `x` unchanged; at a column
boundary (`index % rowsPerColumn = rowsPerColumn - 1`) the next clip moves
right by one `tileWidth` and resets `y` to 0. -/
theorem sourceTileRect_succ (index tileWidth tileHeight rowsPerColumn : Nat)
    (hr : 0 < rowsPerColumn) :
    (index % rowsPerColumn ≠ rowsPerColumn - 1 →
      sourceTileRect (index + 1) tileWidth tileHeight rowsPerColumn =
        { sourceTileRect index tileWidth tileHeight rowsPerColumn with
            y := (sourceTileRect index tileWidth tileHeight rowsPerColumn).y +
              tileHeight }) ∧
    (index % rowsPerColumn = rowsPerColumn - 1 →
      (sourceTileRect (index + 1) tileWidth tileHeight rowsPerColumn).x =
          (sourceTileRect index tileWidth tileHeight rowsPerColumn).x + tileWidth ∧
        (sourceTileRect (index + 1) tileWidth tileHeight rowsPerColumn).y = 0) := by
  constructor
  · intro hne
    have hlt : index % rowsPerColumn < rowsPerColumn := Nat.mod_lt _ hr
    have hstep : index % rowsPerColumn + 1 < rowsPerColumn := by omega
    obtain ⟨hdiv, hmod⟩ := succ_div_mod_of_mod_succ_lt hstep
    simp [sourceTileRect, hdiv, hmod, Nat.add_mul]
  · intro heq
    obtain ⟨hdiv, hmod⟩ := succ_div_mod_of_mod_eq_last hr heq
    simp [sourceTileRect, hdiv, hmod, Nat.add_mul]

/-- Witness for C5: with 3 rows per column, index 0 steps down to index 1, and
index 2 (bottom of the first column) wraps to the top of the next column. -/
theorem sourceTileRect_succ_witness :
    sourceTileRect 1 100 100 3 =
      { sourceTileRect 0 100 100 3 with
          y := (sourceTileRect 0 100 100 3).y + 100 } ∧
    (sourceTileRect 3 100 100 3).x = (sourceTileRect 2 100 100 3).x + 100 ∧
      (sourceTileRect 3 100 100 3).y = 0 :=
  ⟨(sourceTileRect_succ 0 100 100 3 (by decide)).1 (by decide),
    (sourceTileRect_succ 2 100 100 3 (by decide)).2 (by decide)⟩

/-- C6 counterexample: the Lesson 3 background tiling loop does not follow the
column-major destination convention: at index 1 it places the tile at
`(40, 0)` (one step right), while `screenTileOrigin` with Lesson 3's row count
would place it at `(0, 40)` (one step down). -/
theorem lesson3_not_column_major :
    lesson3TileOrigin 1 ≠
      screenTileOrigin 1 lesson3TileSize lesson3TileSize lesson3YTiles := by
  decide

/-- C6 (amended): Lesson 5's screen draw loop follows the column-major
destination convention `screenTileOrigin`, while Lesson 3's background tiling
loop places tiles row-major:
`x = (index % columnsPerScreen) * tileSize`,
`y = (index / columnsPerScreen) * tileSize`. -/
theorem screen_loops_conventions (i : Nat) :
    lesson5ScreenTileOrigin i =
        screenTileOrigin i lesson5TileW lesson5TileH lesson5YScreenTiles ∧
      lesson3TileOrigin i =
        (i % lesson3XTiles * lesson3TileSize, i / lesson3XTiles * lesson3TileSize) :=
  ⟨rfl, rfl⟩

/-- C7: a source smaller than one tile in either direction yields zero source
tiles, and the clips loop produces no rectangles. -/
theorem totalSourceTiles_degenerate
    (sourceWidth sourceHeight tileWidth tileHeight : Nat)
    (htw : 0 < tileWidth) (hth : 0 < tileHeight)
    (hlt : sourceWidth < tileWidth ∨ sourceHeight < tileHeight) :
    totalSourceTiles sourceWidth sourceHeight tileWidth tileHeight = 0 ∧
      buildClips (totalSourceTiles sourceWidth sourceHeight tileWidth tileHeight)
        (yTilesOf sourceHeight tileHeight) tileWidth tileHeight = [] := by
  have hzero : totalSourceTiles sourceWidth sourceHeight tileWidth tileHeight = 0 := by
    rcases hlt with h | h
    · simp [totalSourceTiles, xTilesOf, Nat.div_eq_of_lt h]
    · simp [totalSourceTiles, yTilesOf, Nat.div_eq_of_lt h]
  exact ⟨hzero, by simp [hzero, buildClips]⟩

/-- Witness for C7: the spec's degenerate scenario, a 50×50 source with
100×100 tiles. -/
theorem totalSourceTiles_degenerate_witness :
    totalSourceTiles 50 50 100 100 = 0 ∧
      buildClips (totalSourceTiles 50 50 100 100) (yTilesOf 50 100) 100 100 = [] :=
  totalSourceTiles_degenerate 50 50 100 100 (by decide) (by decide)
    (Or.inl (by decide))

/-- C8: the tile-layout computation is deterministic and referentially
transparent: its result depends only on its numeric inputs (not on any
ambient state), and it leaves the ambient state unchanged. -/
theorem computeTileLayout_pure (σ : Type) (s₁ s₂ : σ)
    (imageW imageH tileW tileH screenW screenH : Nat) :
    (computeTileLayoutSt s₁ imageW imageH tileW tileH screenW screenH).1 =
        (computeTileLayoutSt s₂ imageW imageH tileW tileH screenW screenH).1 ∧
      (computeTileLayoutSt s₁ imageW imageH tileW tileH screenW screenH).2 = s₁ :=
  ⟨rfl, rfl⟩

/-- C9: the variadic `cleanup` releases each non-null handle exactly once (the
release trace is exactly the sequence of non-null arguments, and the number of
releases of a handle equals its number of non-null occurrences), and skips
every null handle without releasing anything for it. -/
theorem cleanup_releases_each_once (α : Type) [DecidableEq α]
    (handles : List (Option α)) :
    cleanup handles = handles.filterMap id ∧
      (∀ x : α, (cleanup handles).count x = handles.count (some x)) ∧
      (∀ rest : List (Option α), cleanup (none :: rest) = cleanup rest) := by
  refine ⟨?_, ?_, fun rest => by simp [cleanup, cleanupOne]⟩
  · induction handles with
    | nil => rfl
    | cons t rest ih => cases t <;> simp [cleanup, cleanupOne, ih]
  · intro x
    induction handles with
    | nil => rfl
    | cons t rest ih =>
      cases t <;> simp [cleanup, cleanupOne, List.count_cons, ih]

/-- Witness for C9: a concrete mixture of null and non-null handles. -/
theorem cleanup_releases_each_once_witness :
    cleanup [some 1, none, some 2, none, some 1] = [1, 2, 1] ∧
      (cleanup [some 1, none, some 2, none, some 1]).count 1 = 2 := by
  have h := cleanup_releases_each_once Nat [some 1, none, some 2, none, some 1]
  exact ⟨h.1.trans (by decide), (h.2.1 1).trans (by decide)⟩

/-- Helper: one event-handling step keeps `useClip` below 4. -/
theorem handleEvent_useClip_lt (s : LoopState) (e : SDLEvent)
    (h : s.useClip < 4) : (handleEvent s e).useClip < 4 := by
  cases e with
  | quit => exact h
  | keyDown k => cases k <;> simp [handleEvent] <;> exact h
  | other => exact h

/-- Helper: the event loop keeps `useClip` below 4 from any state satisfying
the invariant. -/
theorem runEvents_useClip_lt (es : List SDLEvent) :
    ∀ s : LoopState, s.useClip < 4 → (runEvents s es).useClip < 4 := by
  induction es with
  | nil => intro s h; exact h
  | cons e rest ih =>
    intro s h
    exact ih (handleEvent s e) (handleEvent_useClip_lt s e h)

/-- C10: in every reachable state of the Lesson 5 event loop, `useClip` is one
of 0, 1, 2, 3, so `clips[useClip]` is in bounds whenever the source yields at
least 4 tiles. -/
theorem useClip_in_range (es : List SDLEvent) :
    ((runEvents initLoopState es).useClip = 0 ∨
        (runEvents initLoopState es).useClip = 1 ∨
        (runEvents initLoopState es).useClip = 2 ∨
        (runEvents initLoopState es).useClip = 3) ∧
      ∀ totalTiles rowsPerColumn tileW tileH : Nat, 4 ≤ totalTiles →
        (runEvents initLoopState es).useClip <
          (buildClips totalTiles rowsPerColumn tileW tileH).length := by
  have h4 : (runEvents initLoopState es).useClip < 4 :=
    runEvents_useClip_lt es initLoopState (by decide)
  refine ⟨by omega, fun totalTiles rowsPerColumn tileW tileH htot => ?_⟩
  have hlen : (buildClips totalTiles rowsPerColumn tileW tileH).length = totalTiles := by
    simp [buildClips]
  omega

/-- Witness for C10: after pressing key 4 the clip lookup is in bounds for the
8-tile sheet of the spec's concrete scenario. -/
theorem useClip_in_range_witness :
    (runEvents initLoopState [SDLEvent.keyDown SDLKey.k4]).useClip <
      (buildClips 8 2 100 100).length :=
  (useClip_in_range [SDLEvent.keyDown SDLKey.k4]).2 8 2 100 100 (by decide)
